import Mathlib

/-!
Shallow embedding of the package-building pipeline of `src/click.rs`
(the `webber` repository): appname sanitization, content generators,
icon resolution, on-disk staging, tarball creation and final ar-container
assembly, together with proofs of the specification claims.

The embedding models the staging directory as an association list from
relative paths (lists of path segments) to abstract file contents.
External effects (the `url` crate's parser, the network, the spawned
`tar` process) are supplied as per-build oracles in a `World` record;
the control flow, string manipulation and file layout are translated
directly from the Rust source.
-/

/-- Abstract bytes of a staged file.
`text` is a string written by `write_file`; `fetched u` is the body of the
HTTP response obtained for URL `u` (copied verbatim by `download_file`);
`defaultIcon` is the bundled `assets/logo.svg` blob written by `write_icon`
(the asset is external to the translated sources, so its bytes stay
abstract); `tarGz es` is a gzipped tarball whose entry names are `es`;
`arx ms` is an ar archive with named members `ms` in order. -/
inductive Content where
  | text : String → Content
  | fetched : String → Content
  | defaultIcon : Content
  | tarGz : List String → Content
  | arx : List (String × Content) → Content

/-- Errors surfaced by the pipeline: a `reqwest` transport error,
an io error spawning a process (`Command::output`), or an io error from
`File::open` on a missing path. -/
inductive Err where
  | netErr : Err
  | spawnErr : String → Err
  | openErr : List String → Err
deriving DecidableEq

/-- An HTTP response as `reqwest::get` returns it on the `Ok` path:
the status is carried but `download_file` never inspects it. -/
structure HttpResponse where
  statusSuccess : Bool
deriving DecidableEq

/-- The staging directory: most recent write first; paths are segment
lists relative to the staging root. -/
abbrev FS := List (List String × Content)

/-- Per-build oracles for the external effects of `create_package`:
`host` models `url::Url::parse(package.url).ok().map(|u| u.host_str().map(String::from))`;
`iconSegments` models `url::Url::parse(package.icon_url).ok()` followed by
`path_segments()` (outer `none` = parse failure, inner `none` =
cannot-be-a-base URL with no path segments);
`net` models the result of `reqwest::get(&package.icon_url)`;
`tarCtl`/`tarData` model `Command::new("tar")...output()` for the control
and data subtree respectively: `error` is an io error spawning the
process, `ok b` means the process ran and `b` is `status.success()`. -/
structure World where
  host : Option (Option String)
  iconSegments : Option (Option (List String))
  net : Except Unit HttpResponse
  tarCtl : Except Err Bool
  tarData : Except Err Bool

/-- The input record (`pub struct Package` in `src/click.rs`). -/
structure Package where
  url : String
  name : String
  theme_color : String
  icon_url : String
  url_patterns : String

/-- Model of `write_file` / `File::create`: a truncating create, modelled by
prepending; `fsLookup` returns the most recent write. -/
def write_file (filename : List String) (content : Content) (fs : FS) : FS :=
  (filename, content) :: fs

/-- Read a staged file: first (most recent) binding for the path. -/
def fsLookup (p : List String) (fs : FS) : Option Content :=
  match fs with
  | [] => none
  | (q, c) :: rest => if q = p then some c else fsLookup p rest

/-- Model of `char::to_ascii_lowercase`. -/
def asciiToLower (c : Char) : Char :=
  if 'A' ≤ c ∧ c ≤ 'Z' then Char.ofNat (c.toNat + 32) else c

/-- The `filter_map` body in `Package::appname`: `.` and `_` become `-`;
characters in the half-open range `'a'..'z'` (note: exclusive of `z`,
as in the Rust `Range<char>`) and ASCII digits are kept; everything else
is dropped. -/
def sanitizeChar (c : Char) : Option Char :=
  if c = '.' ∨ c = '_' then some '-'
  else if ('a' ≤ c ∧ c < 'z') ∨ c.isDigit then some c
  else none

/-- The lowercase-then-filter step of `Package::appname`. -/
def sanitize (s : String) : String :=
  String.mk ((s.data.map asciiToLower).filterMap sanitizeChar)

/-- Model of `Package::appname`: host of the parsed URL, or the raw URL string when
parsing or host extraction fails, sanitized and prefixed with `webapp-`. -/
def appname (host : Option (Option String)) (url : String) : String :=
  let url_part :=
    match host with
    | some (some h) => h
    | some none => url
    | none => url
  "webapp-" ++ sanitize url_part

/-- Model of `last.rsplit('.').map(String::from).next()`: the substring after the
last `.`, or the whole string when it contains no `.` (Rust `rsplit`
always yields at least one item). -/
def rsplitDotFirst (s : String) : String :=
  String.mk ((s.data.reverse.takeWhile (fun c => !(c = '.'))).reverse)

/-- Lines 77-82 of `create_package`: the icon extension computation.
`none` exactly when the icon URL fails to parse, has no path segments,
or the segment list is empty; otherwise the rsplit suffix of the final
segment. -/
def iconExt (segs : Option (Option (List String))) : Option String :=
  match segs with
  | none => none
  | some none => none
  | some (some segments) =>
    match segments.reverse with
    | [] => none
    | lastSeg :: _ => some (rsplitDotFirst lastSeg)

/-- Model of `download_file`: `reqwest::get(&url)?` then `io::copy` of the body.
The response status is never inspected: any received response has its
body persisted; only a transport-level error aborts. -/
def download_file (net : Except Unit HttpResponse) (url : String) : Except Err Content :=
  match net with
  | .error _ => .error Err.netErr
  | .ok _resp => .ok (Content.fetched url)

/-- Model of `control_control_content`. -/
def control_control_content (appname : String) : String :=
  "Package: " ++ appname ++
    ".webber\nVersion: 1.0.0\nClick-Version: 0.4\nArchitecture: all\nMaintainer: Webber <noreply@ubports.com>\nDescription: Shortcut\n"

/-- Model of `control_manifest_content`. -/
def control_manifest_content (appname : String) (title : String) : String :=
  "\x7b\n    \"architecture\": \"all\",\n    \"description\": \"Shortcut\",\n    \"framework\": \"ubuntu-sdk-16.04\",\n    \"hooks\": \x7b\n        \"" ++
    appname ++
    ".webber\": \x7b\n            \"apparmor\": \"shortcut.apparmor\",\n            \"desktop\": \"shortcut.desktop\"\n        \x7d\n    \x7d,\n    \"installed-size\": \"30\",\n    \"maintainer\": \"Webber <noreply@ubports.com>\",\n    \"name\": \"" ++
    appname ++ ".webber\",\n    \"title\": \"" ++ title ++ "\",\n    \"version\": \"1.0.0\"\n\x7d\n"

/-- Model of `control_preinst_content`. -/
def control_preinst_content : String :=
  "#! /bin/sh\necho \"Click packages may not be installed directly using dpkg.\"\necho \"Use \x27click install\x27 instead.\"\nexit 1"

/-- Model of `data_apparmor_content`. -/
def data_apparmor_content : String :=
  "\x7b\n    \"template\": \"ubuntu-webapp\",\n    \"policy_groups\": [\n        \"networking\",\n        \"webview\"\n    ],\n    \"policy_version\": 16.04\n\x7d\n"

/-- Model of `data_desktop_content`. -/
def data_desktop_content (title url url_patterns icon_fname theme_color : String) : String :=
  "[Desktop Entry]\nName=" ++ title ++
    "\nExec=webapp-container --webappUrlPatterns=" ++ url_patterns ++
    " --store-session-cookies " ++ url ++
    "\nIcon=" ++ icon_fname ++
    "\nTerminal=false\nType=Application\nX-Ubuntu-Touch=true\nX-Ubuntu-Splash-Color=" ++
    theme_color ++ "\n"

/-- Replace the leftmost occurrence of `pat` in `s` by `rep`
(the sed expression `s|pat|rep|` that the tar `--transform` flag runs). -/
def listReplaceFirst (pat rep s : List Char) : List Char :=
  match s with
  | [] => if pat.isPrefixOf [] then rep else []
  | c :: rest =>
    if pat.isPrefixOf (c :: rest) then rep ++ (c :: rest).drop pat.length
    else c :: listReplaceFirst pat rep rest

/-- String version of `listReplaceFirst`. -/
def replaceFirst (pat rep s : String) : String :=
  String.mk (listReplaceFirst pat.data rep.data s.data)

/-- The files staged directly inside subtree `dirname` (paths of the form
`dirname/f`), as the spawned `tar` would pick them up. -/
def subtreeFiles (dirname : String) (fs : FS) : List String :=
  fs.filterMap (fun e =>
    match e.1 with
    | [d, f] => if d = dirname then some f else none
    | _ => none)

/-- The member names of the tarball produced by
`tar --transform "flags=r;s|dirname|.|" -czf out dirname` run from the
parent directory: the directory entry `dirname/` and one entry
`dirname/f` per file, each with the leftmost occurrence of `dirname`
rewritten to `.`. -/
def tarEntries (dirname : String) (files : List String) : List String :=
  replaceFirst dirname "." (dirname ++ "/") ::
    files.map (fun f => replaceFirst dirname "." (dirname ++ "/" ++ f))

/-- Model of `create_tar_gz`: the source runs `tar` via `Command::output()?` and
returns `Ok(())` unconditionally afterwards, so an io error spawning the
process is propagated but the exit status of a tar process that ran is
discarded.  The archive file appears on disk only when the process
actually succeeded. -/
def create_tar_gz (spawn : Except Err Bool) (filepath : List String) (dirname : String)
    (fs : FS) : Except Err Unit × FS :=
  match spawn with
  | .error e => (.error e, fs)
  | .ok exitOk =>
    (.ok (),
      if exitOk then
        write_file filepath (Content.tarGz (tarEntries dirname (subtreeFiles dirname fs))) fs
      else fs)

/-- The member-collection loop of `create_ar`: each source file is opened
(`File::open`) and appended in order; a missing source aborts with that
io error, keeping the members appended so far. -/
def arAppend (fs : FS) (files : List (List String × String)) :
    Except Err Unit × List (String × Content) :=
  match files with
  | [] => (.ok (), [])
  | (src, target) :: rest =>
    match fsLookup src fs with
    | none => (.error (Err.openErr src), [])
    | some c =>
      let (r, ms) := arAppend fs rest
      (r, (target, c) :: ms)

/-- Model of `create_ar`: `File::create(filepath)` happens first, so the output
file exists (with the members collected so far) even when a later
`File::open` fails. -/
def create_ar (fs : FS) (filepath : List String) (files : List (List String × String)) :
    Except Err Unit × FS :=
  ((arAppend fs files).1, write_file filepath (Content.arx (arAppend fs files).2) fs)

/-- Model of `fs::create_dir_all` + `fs::remove_dir_all` + `fs::create_dir` at the
start of `create_package`: whatever the staging root held before, it is
recreated empty. -/
def fsResetRoot (_previous : FS) : FS := []

/-- The tail of `create_package` after the icon has been resolved:
write `shortcut.desktop`, build the two tarballs, assemble the ar
container `shortcut.click`. -/
def stage_rest (w : World) (package : Package) (icon_filename : String) (fs : FS)
    (fetches : List String) : Except Err Unit × FS × List String :=
  let fs := write_file ["data", "shortcut.desktop"]
    (Content.text (data_desktop_content package.name package.url package.url_patterns
      icon_filename package.theme_color)) fs
  match create_tar_gz w.tarCtl ["control.tar.gz"] "control" fs with
  | (Except.error e, fs) => (.error e, fs, fetches)
  | (Except.ok _, fs) =>
    match create_tar_gz w.tarData ["data.tar.gz"] "data" fs with
    | (Except.error e, fs) => (.error e, fs, fetches)
    | (Except.ok _, fs) =>
      let rfs := create_ar fs ["shortcut.click"]
        [(["debian-binary"], "debian-binary"),
         (["control.tar.gz"], "control.tar.gz"),
         (["data.tar.gz"], "data.tar.gz"),
         (["click_binary"], "_click-binary")]
      (rfs.1, rfs.2, fetches)

/-- Model of `create_package`, translated line by line: reset the staging root,
write the marker files and the control/data files, resolve the icon
(fetching when an extension was computed, bundled default otherwise),
then hand over to the archive steps.  The returned triple is the Rust
result, the final staging directory, and the list of URLs for which a
network fetch was attempted. -/
def create_package (w : World) (package : Package) (fs0 : FS) :
    Except Err Unit × FS × List String :=
  let fs := fsResetRoot fs0
  let appn := appname w.host package.url
  let fs := write_file ["click_binary"] (Content.text "0.4\n") fs
  let fs := write_file ["debian-binary"] (Content.text "2.0\n") fs
  let fs := write_file ["control", "control"] (Content.text (control_control_content appn)) fs
  let fs := write_file ["control", "manifest"]
    (Content.text (control_manifest_content appn package.name)) fs
  let fs := write_file ["data", "preinst"] (Content.text control_preinst_content) fs
  let fs := write_file ["data", "shortcut.apparmor"] (Content.text data_apparmor_content) fs
  match iconExt w.iconSegments with
  | some ext =>
    let icon_fname := "icon." ++ ext
    match download_file w.net package.icon_url with
    | .error e => (.error e, fs, [package.icon_url])
    | .ok c => stage_rest w package icon_fname (write_file ["data", icon_fname] c fs)
        [package.icon_url]
  | none =>
    stage_rest w package "icon.svg" (write_file ["data", "icon.svg"] Content.defaultIcon fs) []

/-- Result of a build. -/
def buildResult (w : World) (p : Package) (fs0 : FS) : Except Err Unit :=
  (create_package w p fs0).1

/-- Final staging directory of a build. -/
def buildFS (w : World) (p : Package) (fs0 : FS) : FS :=
  (create_package w p fs0).2.1

/-- URLs for which a build attempted a network fetch. -/
def buildFetches (w : World) (p : Package) (fs0 : FS) : List String :=
  (create_package w p fs0).2.2

/-! ### Helper lemmas -/

/-- Two strings with the same character data are equal. -/
lemma string_eq_of_data {s t : String} (h : s.data = t.data) : s = t := by
  cases s
  cases t
  cases h
  rfl

/-- Appending strings appends their character data. -/
lemma string_data_append (s t : String) : (s ++ t).data = s.data ++ t.data := rfl

/-- String append is associative. -/
lemma string_append_assoc (s t u : String) : s ++ t ++ u = s ++ (t ++ u) :=
  string_eq_of_data (by simp [string_data_append])

/-- A file name of the form `icon.<ext>` differs from any name whose first
character is not `i`. -/
lemma icon_dot_ne (e t : String) (h : t.data.head? ≠ some 'i') : ¬("icon." ++ e = t) := by
  intro hc
  apply h
  rw [← hc]
  rfl

/-- Path-level version of `icon_dot_ne`. -/
lemma icon_path_ne (e t : String) (h : t.data.head? ≠ some 'i') :
    (["data", "icon." ++ e] : List String) ≠ ["data", t] := by
  intro hc
  apply icon_dot_ne e t h
  injection hc with _ h2
  injection h2

/-- Replacing the leftmost occurrence of a nonempty pattern in a list that
starts with that very pattern replaces the leading copy. -/
lemma listReplaceFirst_of_prefix (pat rep t : List Char) (h : pat ≠ []) :
    listReplaceFirst pat rep (pat ++ t) = rep ++ t := by
  match pat, h with
  | p :: ps, _ =>
    show listReplaceFirst (p :: ps) rep (p :: (ps ++ t)) = rep ++ t
    rw [listReplaceFirst]
    rw [if_pos]
    · simp
    · exact List.isPrefixOf_iff_prefix.mpr ⟨t, by simp⟩

/-- String-level version of `listReplaceFirst_of_prefix`. -/
lemma replaceFirst_of_append (pat rep s : String) (h : pat.data ≠ []) :
    replaceFirst pat rep (pat ++ s) = rep ++ s := by
  unfold replaceFirst
  rw [string_data_append, listReplaceFirst_of_prefix _ _ _ h]
  cases rep
  cases s
  rfl

/-- Reading past a non-matching staging entry. -/
lemma fsLookup_cons_of_ne {q p : List String} (c : Content) (fs : FS) (h : ¬(q = p)) :
    fsLookup p ((q, c) :: fs) = fsLookup p fs := by
  simp [fsLookup, h]

/-- Reading the most recent write. -/
lemma fsLookup_cons_self (p : List String) (c : Content) (fs : FS) :
    fsLookup p ((p, c) :: fs) = some c := by
  simp [fsLookup]

/-- The eight files staged by `create_package` before the tarball steps,
most recent first, for appname `a` and resolved icon `icon_fname`. -/
def stagedFiles (p : Package) (a icon_fname : String) (iconC : Content) : FS :=
  [(["data", "shortcut.desktop"],
      Content.text (data_desktop_content p.name p.url p.url_patterns icon_fname p.theme_color)),
   (["data", icon_fname], iconC),
   (["data", "shortcut.apparmor"], Content.text data_apparmor_content),
   (["data", "preinst"], Content.text control_preinst_content),
   (["control", "manifest"], Content.text (control_manifest_content a p.name)),
   (["control", "control"], Content.text (control_control_content a)),
   (["debian-binary"], Content.text "2.0\n"),
   (["click_binary"], Content.text "0.4\n")]

/-- The staging directory after a fully successful build. -/
def finishedFS (p : Package) (a icon_fname : String) (iconC : Content) : FS :=
  let st := stagedFiles p a icon_fname iconC
  let ctl := Content.tarGz (tarEntries "control" (subtreeFiles "control" st))
  let fs1 := (["control.tar.gz"], ctl) :: st
  let dat := Content.tarGz (tarEntries "data" (subtreeFiles "data" fs1))
  let fs2 := (["data.tar.gz"], dat) :: fs1
  (["shortcut.click"],
    Content.arx [("debian-binary", Content.text "2.0\n"), ("control.tar.gz", ctl),
                 ("data.tar.gz", dat), ("_click-binary", Content.text "0.4\n")]) :: fs2

/-- Any successful build went through one of the two icon branches, both
tar processes spawned and succeeded, and the final staging directory has
exactly the `finishedFS` shape. -/
lemma build_success_shape (w : World) (p : Package) (fs0 : FS)
    (h : (create_package w p fs0).1 = Except.ok ()) :
    ∃ icon_fname iconC,
      ((iconExt w.iconSegments = none ∧ icon_fname = "icon.svg" ∧ iconC = Content.defaultIcon
          ∧ (create_package w p fs0).2.2 = [])
        ∨ (∃ e r, iconExt w.iconSegments = some e ∧ w.net = Except.ok r
            ∧ icon_fname = "icon." ++ e ∧ iconC = Content.fetched p.icon_url
            ∧ (create_package w p fs0).2.2 = [p.icon_url]))
      ∧ w.tarCtl = Except.ok true ∧ w.tarData = Except.ok true
      ∧ (create_package w p fs0).2.1 = finishedFS p (appname w.host p.url) icon_fname iconC := by
  rcases hseg : iconExt w.iconSegments with _ | e
  · rcases hctl : w.tarCtl with ec | bc
    · simp [create_package, stage_rest, create_tar_gz, hseg, hctl] at h
    · rcases hdat : w.tarData with ed | bd
      · cases bc <;>
          simp [create_package, stage_rest, create_tar_gz, hseg, hctl, hdat,
            create_ar, arAppend, fsLookup, write_file] at h
      · cases bc
        · cases bd <;>
            simp [create_package, stage_rest, create_tar_gz, hseg, hctl, hdat,
              create_ar, arAppend, fsLookup, write_file] at h
        · cases bd
          · simp [create_package, stage_rest, create_tar_gz, hseg, hctl, hdat,
              create_ar, arAppend, fsLookup, write_file] at h
          · have key : create_package w p fs0 =
                (Except.ok (), finishedFS p (appname w.host p.url) "icon.svg" Content.defaultIcon,
                  []) := by
              simp only [create_package, stage_rest, create_tar_gz, hseg, hctl, hdat]
              rfl
            refine ⟨"icon.svg", Content.defaultIcon, Or.inl ⟨rfl, rfl, rfl, ?_⟩, rfl, rfl, ?_⟩
            · rw [key]
            · rw [key]
  · rcases hnet : w.net with u | r
    · simp [create_package, download_file, hseg, hnet] at h
    · rcases hctl : w.tarCtl with ec | bc
      · simp [create_package, stage_rest, create_tar_gz, download_file, hseg, hnet, hctl] at h
      · rcases hdat : w.tarData with ed | bd
        · cases bc <;>
            simp [create_package, stage_rest, create_tar_gz, download_file, hseg, hnet, hctl,
              hdat, create_ar, arAppend, fsLookup, write_file] at h
        · cases bc
          · cases bd <;>
              simp [create_package, stage_rest, create_tar_gz, download_file, hseg, hnet, hctl,
                hdat, create_ar, arAppend, fsLookup, write_file] at h
          · cases bd
            · simp [create_package, stage_rest, create_tar_gz, download_file, hseg, hnet, hctl,
                hdat, create_ar, arAppend, fsLookup, write_file] at h
            · have key : create_package w p fs0 =
                  (Except.ok (),
                    finishedFS p (appname w.host p.url) ("icon." ++ e)
                      (Content.fetched p.icon_url), [p.icon_url]) := by
                simp only [create_package, stage_rest, create_tar_gz, download_file, hseg,
                  hnet, hctl, hdat]
                rfl
              refine ⟨"icon." ++ e, Content.fetched p.icon_url,
                Or.inr ⟨e, r, rfl, rfl, rfl, rfl, ?_⟩, rfl, rfl, ?_⟩
              · rw [key]
              · rw [key]

/-! ### Concrete build fixtures -/

/-- A request whose icon URL does not parse (`iconSegments = none`),
so the bundled default icon is used and no fetch happens. -/
def p_fallback : Package :=
  { url := "https://example.com", name := "Example", theme_color := "#ffffff",
    icon_url := "not a url", url_patterns := "https://example.com/*" }

/-- World for `p_fallback`: icon URL unparsable, both tar processes run
and succeed; the network is down, which such a build never notices. -/
def w_fallback : World :=
  { host := some (some "example.com"), iconSegments := none,
    net := Except.error (), tarCtl := Except.ok true, tarData := Except.ok true }

/-- A request whose icon URL has a final path segment without a dot
(`https://example.com/icon`). -/
def p_noext : Package :=
  { url := "https://example.com", name := "Example", theme_color := "#ffffff",
    icon_url := "https://example.com/icon", url_patterns := "https://example.com/*" }

/-- World for `p_noext`: the `url` crate parses the icon URL with path
segments `["icon"]`; the fetch succeeds; both tar processes succeed. -/
def w_noext : World :=
  { host := some (some "example.com"), iconSegments := some (some ["icon"]),
    net := Except.ok { statusSuccess := true },
    tarCtl := Except.ok true, tarData := Except.ok true }

/-- A request whose icon URL ends in `.png`. -/
def p_png : Package :=
  { url := "https://example.com", name := "Example", theme_color := "#ffffff",
    icon_url := "https://example.com/icon.png", url_patterns := "https://example.com/*" }

/-- World for `p_png` in which the server answers with a NON-success HTTP
status (e.g. 404): `reqwest::get` still returns `Ok`. -/
def w_status : World :=
  { host := some (some "example.com"), iconSegments := some (some ["icon.png"]),
    net := Except.ok { statusSuccess := false },
    tarCtl := Except.ok true, tarData := Except.ok true }

/-- World for `p_png` in which the fetch fails at the transport level
(DNS/connection error): `reqwest::get` returns `Err`. -/
def w_neterr : World :=
  { host := some (some "example.com"), iconSegments := some (some ["icon.png"]),
    net := Except.error (), tarCtl := Except.ok true, tarData := Except.ok true }

/-! ### C2 -/

/-- C2: for every `PackageRequest` on which the build succeeds, the
produced outer container `shortcut.click` has exactly four members,
named and ordered `debian-binary`, `control.tar.gz`, `data.tar.gz`,
`_click-binary`, regardless of input. -/
theorem container_four_members (w : World) (p : Package) (fs0 : FS)
    (h : (create_package w p fs0).1 = Except.ok ()) :
    ∃ members,
      fsLookup ["shortcut.click"] (create_package w p fs0).2.1 = some (Content.arx members)
      ∧ members.map Prod.fst =
          ["debian-binary", "control.tar.gz", "data.tar.gz", "_click-binary"] := by
  obtain ⟨fn, ic, _, _, _, hfs⟩ := build_success_shape w p fs0 h
  rw [hfs]
  exact ⟨_, rfl, rfl⟩

/-- Witness for C2 at a concrete successful build. -/
theorem container_four_members_witness :
    ∃ members,
      fsLookup ["shortcut.click"] (create_package w_fallback p_fallback []).2.1 =
        some (Content.arx members)
      ∧ members.map Prod.fst =
          ["debian-binary", "control.tar.gz", "data.tar.gz", "_click-binary"] :=
  container_four_members w_fallback p_fallback [] rfl

/-! ### C10 -/

/-- C10: on every successful build the fixed marker members are the bytes
`2.0\n` (`debian-binary`) and `0.4\n` (`_click-binary`), and the same
`0.4` click-format version appears as the `Click-Version` value of the
generated control file. -/
theorem version_markers (w : World) (p : Package) (fs0 : FS)
    (h : (create_package w p fs0).1 = Except.ok ()) :
    ∃ ctl dat,
      fsLookup ["shortcut.click"] (create_package w p fs0).2.1 =
        some (Content.arx [("debian-binary", Content.text "2.0\n"), ("control.tar.gz", ctl),
          ("data.tar.gz", dat), ("_click-binary", Content.text ("0.4" ++ "\n"))])
      ∧ ∃ pre post, control_control_content (appname w.host p.url) =
          pre ++ ("Click-Version: " ++ "0.4" ++ "\n") ++ post := by
  obtain ⟨fn, ic, _, _, _, hfs⟩ := build_success_shape w p fs0 h
  rw [hfs]
  refine ⟨_, _, rfl, "Package: " ++ appname w.host p.url ++ ".webber\nVersion: 1.0.0\n",
    "Architecture: all\nMaintainer: Webber <noreply@ubports.com>\nDescription: Shortcut\n", ?_⟩
  apply string_eq_of_data
  simp only [string_data_append, List.append_assoc]
  congr 1

/-- Witness for C10 at a concrete successful build. -/
theorem version_markers_witness :
    ∃ ctl dat,
      fsLookup ["shortcut.click"] (create_package w_fallback p_fallback []).2.1 =
        some (Content.arx [("debian-binary", Content.text "2.0\n"), ("control.tar.gz", ctl),
          ("data.tar.gz", dat), ("_click-binary", Content.text ("0.4" ++ "\n"))])
      ∧ ∃ pre post, control_control_content (appname w_fallback.host p_fallback.url) =
          pre ++ ("Click-Version: " ++ "0.4" ++ "\n") ++ post :=
  version_markers w_fallback p_fallback [] rfl

/-! ### C4 -/

/-- C4 counterexample: at a concrete build, `preinst` is staged under the
`data` subtree and is absent from the `control` subtree, contradicting
the claimed layout `root/control/{control, manifest, preinst}`. -/
theorem preinst_under_data :
    fsLookup ["data", "preinst"] (create_package w_fallback p_fallback []).2.1 =
      some (Content.text control_preinst_content)
    ∧ fsLookup ["control", "preinst"] (create_package w_fallback p_fallback []).2.1 = none :=
  ⟨rfl, rfl⟩

/-- C4 (amended): on every successful build the staged layout is
`control/{control, manifest}`, `data/{preinst, shortcut.apparmor,
shortcut.desktop, icon file}`, plus the root-level `click_binary` and
`debian-binary` marker files — `preinst` lives under the data subtree,
not the control subtree. -/
theorem staging_layout (w : World) (p : Package) (fs0 : FS)
    (h : (create_package w p fs0).1 = Except.ok ()) :
    ∃ icon_fname iconC,
      fsLookup ["click_binary"] (create_package w p fs0).2.1 = some (Content.text "0.4\n")
      ∧ fsLookup ["debian-binary"] (create_package w p fs0).2.1 = some (Content.text "2.0\n")
      ∧ fsLookup ["control", "control"] (create_package w p fs0).2.1 =
          some (Content.text (control_control_content (appname w.host p.url)))
      ∧ fsLookup ["control", "manifest"] (create_package w p fs0).2.1 =
          some (Content.text (control_manifest_content (appname w.host p.url) p.name))
      ∧ fsLookup ["data", "preinst"] (create_package w p fs0).2.1 =
          some (Content.text control_preinst_content)
      ∧ fsLookup ["control", "preinst"] (create_package w p fs0).2.1 = none
      ∧ fsLookup ["data", "shortcut.apparmor"] (create_package w p fs0).2.1 =
          some (Content.text data_apparmor_content)
      ∧ fsLookup ["data", "shortcut.desktop"] (create_package w p fs0).2.1 =
          some (Content.text (data_desktop_content p.name p.url p.url_patterns icon_fname
            p.theme_color))
      ∧ fsLookup ["data", icon_fname] (create_package w p fs0).2.1 = some iconC
      ∧ ((icon_fname = "icon.svg" ∧ iconC = Content.defaultIcon)
          ∨ ∃ e, icon_fname = "icon." ++ e ∧ iconC = Content.fetched p.icon_url) := by
  obtain ⟨fn, ic, hbranch, _, _, hfs⟩ := build_success_shape w p fs0 h
  rw [hfs]
  rcases hbranch with ⟨_, hfn, hic, _⟩ | ⟨e, r, _, _, hfn, hic, _⟩
  · subst hfn; subst hic
    exact ⟨"icon.svg", Content.defaultIcon, rfl, rfl, rfl, rfl, rfl, rfl, rfl, rfl, rfl,
      Or.inl ⟨rfl, rfl⟩⟩
  · subst hfn; subst hic
    have n1 : ¬(("icon." ++ e : String) = "preinst") := icon_dot_ne e _ (by decide)
    have n2 : ¬(("icon." ++ e : String) = "shortcut.apparmor") := icon_dot_ne e _ (by decide)
    have n3 : ¬(("shortcut.desktop" : String) = "icon." ++ e) :=
      fun hh => icon_dot_ne e _ (by decide) hh.symm
    refine ⟨"icon." ++ e, Content.fetched p.icon_url, rfl, rfl, rfl, rfl, ?_, rfl, ?_, rfl,
      ?_, Or.inr ⟨e, rfl, rfl⟩⟩
    · simp [finishedFS, stagedFiles, fsLookup, n1]
    · simp [finishedFS, stagedFiles, fsLookup, n2]
    · simp [finishedFS, stagedFiles, fsLookup, n3]

/-- Witness for C4's amended layout at a concrete successful build. -/
theorem staging_layout_witness :
    ∃ icon_fname iconC,
      fsLookup ["click_binary"] (create_package w_fallback p_fallback []).2.1 =
        some (Content.text "0.4\n")
      ∧ fsLookup ["debian-binary"] (create_package w_fallback p_fallback []).2.1 =
          some (Content.text "2.0\n")
      ∧ fsLookup ["control", "control"] (create_package w_fallback p_fallback []).2.1 =
          some (Content.text (control_control_content
            (appname w_fallback.host p_fallback.url)))
      ∧ fsLookup ["control", "manifest"] (create_package w_fallback p_fallback []).2.1 =
          some (Content.text (control_manifest_content
            (appname w_fallback.host p_fallback.url) p_fallback.name))
      ∧ fsLookup ["data", "preinst"] (create_package w_fallback p_fallback []).2.1 =
          some (Content.text control_preinst_content)
      ∧ fsLookup ["control", "preinst"] (create_package w_fallback p_fallback []).2.1 = none
      ∧ fsLookup ["data", "shortcut.apparmor"] (create_package w_fallback p_fallback []).2.1 =
          some (Content.text data_apparmor_content)
      ∧ fsLookup ["data", "shortcut.desktop"] (create_package w_fallback p_fallback []).2.1 =
          some (Content.text (data_desktop_content p_fallback.name p_fallback.url
            p_fallback.url_patterns icon_fname p_fallback.theme_color))
      ∧ fsLookup ["data", icon_fname] (create_package w_fallback p_fallback []).2.1 =
          some iconC
      ∧ ((icon_fname = "icon.svg" ∧ iconC = Content.defaultIcon)
          ∨ ∃ e, icon_fname = "icon." ++ e ∧ iconC = Content.fetched p_fallback.icon_url) :=
  staging_layout w_fallback p_fallback [] rfl

/-! ### C8 -/

/-- C8: every build resets the staging root before writing, so the result
is independent of whatever the staging area held before, and a second
build started from the first build's staging area equals a build started
from an empty one — no residue survives. -/
theorem staging_reset_no_residue (w w2 : World) (p p2 : Package) (fs0 fs0' : FS) :
    create_package w p fs0 = create_package w p fs0'
    ∧ create_package w2 p2 ((create_package w p fs0).2.1) = create_package w2 p2 [] :=
  ⟨rfl, rfl⟩

/-! ### C3 -/

/-- Every character produced by `sanitize` is a hyphen, a lowercase ASCII
letter, or an ASCII digit. -/
lemma sanitize_chars (s : String) :
    ∀ c ∈ (sanitize s).data, c = '-' ∨ ('a' ≤ c ∧ c ≤ 'z') ∨ ('0' ≤ c ∧ c ≤ '9') := by
  intro c hc
  have hc' : c ∈ (s.data.map asciiToLower).filterMap sanitizeChar := hc
  obtain ⟨a, _, hfa⟩ := List.mem_filterMap.mp hc'
  unfold sanitizeChar at hfa
  by_cases h1 : a = '.' ∨ a = '_'
  · rw [if_pos h1] at hfa
    left
    exact (Option.some.inj hfa).symm
  · rw [if_neg h1] at hfa
    by_cases h2 : ('a' ≤ a ∧ a < 'z') ∨ a.isDigit
    · rw [if_pos h2] at hfa
      have hca : c = a := (Option.some.inj hfa).symm
      subst hca
      right
      rcases h2 with ⟨hl, hr⟩ | hd
      · exact Or.inl ⟨hl, le_of_lt hr⟩
      · right
        simp [Char.isDigit] at hd
        exact ⟨Char.le_def.mpr hd.1, Char.le_def.mpr hd.2⟩
    · rw [if_neg h2] at hfa
      exact absurd hfa (by simp)

/-- C3: the derived identifier is `webapp-` followed by the sanitized
host (or the sanitized raw url when parsing or host extraction fails);
every identifier starts with `webapp-` and the remainder holds only
lowercase letters, digits and hyphens.  `appname` is a total function,
so this step can never raise an error. -/
theorem appname_shape_and_charset (host : Option (Option String)) (url : String) :
    appname host url = "webapp-" ++ sanitize
        (match host with
         | some (some h) => h
         | some none => url
         | none => url)
    ∧ "webapp-".data <+: (appname host url).data
    ∧ ∀ c ∈ (appname host url).data.drop 7,
        c = '-' ∨ ('a' ≤ c ∧ c ≤ 'z') ∨ ('0' ≤ c ∧ c ≤ '9') := by
  refine ⟨rfl, ⟨(sanitize (match host with
         | some (some h) => h
         | some none => url
         | none => url)).data, rfl⟩, ?_⟩
  have hdrop : (appname host url).data.drop 7 =
      (sanitize (match host with
         | some (some h) => h
         | some none => url
         | none => url)).data := rfl
  rw [hdrop]
  exact sanitize_chars _

/-- Witness for C3 on a concrete host and on a concrete parse failure. -/
theorem appname_shape_and_charset_witness :
    (appname (some (some "sub.Example_7.org")) "https://sub.example_7.org" =
        "webapp-" ++ sanitize "sub.Example_7.org"
      ∧ "webapp-".data <+:
          (appname (some (some "sub.Example_7.org")) "https://sub.example_7.org").data
      ∧ ∀ c ∈ (appname (some (some "sub.Example_7.org"))
            "https://sub.example_7.org").data.drop 7,
          c = '-' ∨ ('a' ≤ c ∧ c ≤ 'z') ∨ ('0' ≤ c ∧ c ≤ '9'))
    ∧ appname none "Not a URL!" = "webapp-" ++ sanitize "Not a URL!"
    ∧ appname (some (some "sub.Example_7.org")) "https://sub.example_7.org" =
        "webapp-sub-example-7-org"
    ∧ appname none "Not a URL!" = "webapp-notaurl" :=
  ⟨appname_shape_and_charset (some (some "sub.Example_7.org")) "https://sub.example_7.org",
    (appname_shape_and_charset none "Not a URL!").1, rfl, rfl⟩

/-! ### C9 -/

/-- C9: identifier derivation and every content generator are pure
functions of their inputs: two runs on equal inputs produce byte-equal
outputs (no randomness, no timestamps), and sanitizing
`https://Example.COM/path` (host `example.com`, or even the raw host
spelling `Example.COM`) yields `webapp-example-com`. -/
theorem generators_deterministic :
    (∀ h u h2 u2, h = h2 → u = u2 → appname h u = appname h2 u2)
    ∧ (∀ a a2, a = a2 → control_control_content a = control_control_content a2)
    ∧ (∀ a t a2 t2, a = a2 → t = t2 →
        control_manifest_content a t = control_manifest_content a2 t2)
    ∧ (∀ t u up i th t2 u2 up2 i2 th2, t = t2 → u = u2 → up = up2 → i = i2 → th = th2 →
        data_desktop_content t u up i th = data_desktop_content t2 u2 up2 i2 th2)
    ∧ appname (some (some "example.com")) "https://Example.COM/path" = "webapp-example-com"
    ∧ appname (some (some "Example.COM")) "https://Example.COM/path" = "webapp-example-com" := by
  refine ⟨?_, ?_, ?_, ?_, rfl, rfl⟩ <;> (intros; subst_vars; rfl)

/-- Witness for C9: the determinism clauses applied at concrete inputs. -/
theorem generators_deterministic_witness :
    appname (some (some "example.com")) "https://Example.COM/path" =
      appname (some (some "example.com")) "https://Example.COM/path"
    ∧ control_control_content "webapp-example-com" =
        control_control_content "webapp-example-com"
    ∧ appname (some (some "example.com")) "https://Example.COM/path" = "webapp-example-com" :=
  ⟨generators_deterministic.1 _ _ _ _ rfl rfl, generators_deterministic.2.1 _ _ rfl,
    generators_deterministic.2.2.2.2.1⟩

/-! ### C5 -/

/-- An entry `dirname/f` is rewritten by the tar transform to `./f`. -/
lemma replaceFirst_subtree_entry (d f : String) (hne : d.data ≠ []) :
    replaceFirst d "." (d ++ "/" ++ f) = "./" ++ f := by
  rw [string_append_assoc, replaceFirst_of_append _ _ _ hne]
  rfl

/-- C5: for either staged subtree (`control` or `data`) and any staging
state, every file of the subtree appears in the tarball as `./<file>`,
every entry starts with `.`, and no entry carries the subtree's own
directory name as a prefix. -/
theorem tar_entries_rooted_at_dot (d : String) (fs : FS)
    (hd : d = "control" ∨ d = "data") :
    (∀ f ∈ subtreeFiles d fs, ("./" ++ f) ∈ tarEntries d (subtreeFiles d fs))
    ∧ ∀ en ∈ tarEntries d (subtreeFiles d fs),
        en.data.head? = some '.' ∧ ¬(d.data <+: en.data) := by
  have hne : d.data ≠ [] := by rcases hd with h | h <;> subst h <;> decide
  have hhd : d.data.head? ≠ some '.' := by rcases hd with h | h <;> subst h <;> decide
  constructor
  · intro f hf
    unfold tarEntries
    right
    exact List.mem_map.mpr ⟨f, hf, replaceFirst_subtree_entry d f hne⟩
  · intro en hen
    have key : ∀ g : String, en = "./" ++ g →
        en.data.head? = some '.' ∧ ¬(d.data <+: en.data) := by
      intro g hg
      subst hg
      constructor
      · rfl
      · intro hpre
        apply hhd
        have hh : ("./" ++ g).data = '.' :: '/' :: g.data := rfl
        rw [hh] at hpre
        match d.data, hne, hpre with
        | c :: cs, _, hpre =>
          have he := (List.cons_prefix_cons.mp hpre).1
          subst he
          rfl
    rcases List.mem_cons.mp hen with hdir | hmem
    · refine key "" ?_
      rw [hdir]
      have hdd : (d ++ "/") = d ++ "/" ++ "" := by
        apply string_eq_of_data
        simp [string_data_append]
      rw [hdd, replaceFirst_subtree_entry d "" hne]
    · obtain ⟨f, _, hfe⟩ := List.mem_map.mp hmem
      refine key f ?_
      rw [← hfe, replaceFirst_subtree_entry d f hne]

/-- Witness for C5 on the data subtree of a concrete staging state. -/
theorem tar_entries_rooted_at_dot_witness :
    (∀ f ∈ subtreeFiles "data" [(["data", "preinst"], Content.text control_preinst_content)],
      ("./" ++ f) ∈ tarEntries "data"
        (subtreeFiles "data" [(["data", "preinst"], Content.text control_preinst_content)]))
    ∧ ∀ en ∈ tarEntries "data"
        (subtreeFiles "data" [(["data", "preinst"], Content.text control_preinst_content)]),
        en.data.head? = some '.' ∧ ¬(("data" : String).data <+: en.data) :=
  tar_entries_rooted_at_dot "data"
    [(["data", "preinst"], Content.text control_preinst_content)] (Or.inr rfl)

/-! ### C6 -/

/-- The archive steps never change the fetch trace. -/
lemma stage_rest_fetches (w : World) (p : Package) (icon : String) (fs : FS)
    (ft : List String) : (stage_rest w p icon fs ft).2.2 = ft := by
  unfold stage_rest
  rcases w.tarCtl with e | b
  · simp [create_tar_gz]
  · rcases w.tarData with e2 | b2
    · cases b <;> simp [create_tar_gz]
    · cases b <;> cases b2 <;> simp [create_tar_gz, create_ar]

/-- The archive steps only add `shortcut.desktop`, the two tarballs and
`shortcut.click`: any other path reads the same as before. -/
lemma stage_rest_preserves (w : World) (p : Package) (icon : String) (fs : FS)
    (ft : List String) (q : List String)
    (h1 : q ≠ ["data", "shortcut.desktop"]) (h2 : q ≠ ["control.tar.gz"])
    (h3 : q ≠ ["data.tar.gz"]) (h4 : q ≠ ["shortcut.click"]) :
    fsLookup q (stage_rest w p icon fs ft).2.1 = fsLookup q fs := by
  unfold stage_rest
  rcases w.tarCtl with e | b
  · simp [create_tar_gz, write_file, fsLookup_cons_of_ne _ _ (Ne.symm h1)]
  · rcases w.tarData with e2 | b2
    · cases b <;>
        simp [create_tar_gz, write_file, fsLookup_cons_of_ne _ _ (Ne.symm h1),
          fsLookup_cons_of_ne _ _ (Ne.symm h2)]
    · cases b <;> cases b2 <;>
        simp [create_tar_gz, create_ar, write_file, fsLookup_cons_of_ne _ _ (Ne.symm h1),
          fsLookup_cons_of_ne _ _ (Ne.symm h2), fsLookup_cons_of_ne _ _ (Ne.symm h3),
          fsLookup_cons_of_ne _ _ (Ne.symm h4)]

/-- C6 counterexample: a non-success HTTP response does NOT abort the
build.  With the server answering `p_png`'s icon request with a failing
status (`w_status.net = Except.ok { statusSuccess := false }`), the build
succeeds, the response body is saved as `icon.png`, and a finished
`shortcut.click` is produced — contradicting the claim that a
non-success response is a hard error. -/
theorem non_success_response_saved :
    (create_package w_status p_png []).1 = Except.ok ()
    ∧ w_status.net = Except.ok { statusSuccess := false }
    ∧ fsLookup ["data", "icon.png"] (create_package w_status p_png []).2.1 =
        some (Content.fetched "https://example.com/icon.png")
    ∧ ∃ m, fsLookup ["shortcut.click"] (create_package w_status p_png []).2.1 =
        some (Content.arx m) :=
  ⟨rfl, rfl, rfl, ⟨_, rfl⟩⟩

/-- C6 (amended): once an extension was computed, a TRANSPORT-level fetch
failure (`reqwest::get` error) aborts the build with the network error,
after exactly one fetch attempt, with no fallback to the default icon and
no finished `shortcut.click`; a received response — whatever its HTTP
status — has its body staged as `icon.<ext>` instead. -/
theorem icon_transport_failure_aborts (w : World) (p : Package) (fs0 : FS) (e : String)
    (hext : iconExt w.iconSegments = some e) :
    (w.net = Except.error () →
      (create_package w p fs0).1 = Except.error Err.netErr
      ∧ fsLookup ["shortcut.click"] (create_package w p fs0).2.1 = none
      ∧ (create_package w p fs0).2.2 = [p.icon_url]
      ∧ ∀ pc ∈ (create_package w p fs0).2.1, pc.2 ≠ Content.defaultIcon)
    ∧ ∀ r, w.net = Except.ok r →
        fsLookup ["data", "icon." ++ e] (create_package w p fs0).2.1 =
          some (Content.fetched p.icon_url) := by
  constructor
  · intro hnet
    have key : create_package w p fs0 =
        (Except.error Err.netErr,
          [(["data", "shortcut.apparmor"], Content.text data_apparmor_content),
           (["data", "preinst"], Content.text control_preinst_content),
           (["control", "manifest"],
             Content.text (control_manifest_content (appname w.host p.url) p.name)),
           (["control", "control"],
             Content.text (control_control_content (appname w.host p.url))),
           (["debian-binary"], Content.text "2.0\n"),
           (["click_binary"], Content.text "0.4\n")], [p.icon_url]) := by
      simp only [create_package, download_file, hext, hnet]
      rfl
    rw [key]
    refine ⟨rfl, rfl, rfl, ?_⟩
    intro pc hpc
    simp only [List.mem_cons, List.not_mem_nil, or_false] at hpc
    rcases hpc with h | h | h | h | h | h <;> subst h <;> simp
  · intro r hnet
    have key : create_package w p fs0 =
        stage_rest w p ("icon." ++ e)
          ((["data", "icon." ++ e], Content.fetched p.icon_url) ::
            [(["data", "shortcut.apparmor"], Content.text data_apparmor_content),
             (["data", "preinst"], Content.text control_preinst_content),
             (["control", "manifest"],
               Content.text (control_manifest_content (appname w.host p.url) p.name)),
             (["control", "control"],
               Content.text (control_control_content (appname w.host p.url))),
             (["debian-binary"], Content.text "2.0\n"),
             (["click_binary"], Content.text "0.4\n")]) [p.icon_url] := by
      simp only [create_package, download_file, hext, hnet]
      rfl
    rw [key, stage_rest_preserves]
    · exact fsLookup_cons_self _ _ _
    · exact icon_path_ne e _ (by decide)
    · intro hh
      simp at hh
    · intro hh
      simp at hh
    · intro hh
      simp at hh

/-- Witness for C6's amended statement: transport failure on `p_png`. -/
theorem icon_transport_failure_aborts_witness :
    (create_package w_neterr p_png []).1 = Except.error Err.netErr
    ∧ fsLookup ["shortcut.click"] (create_package w_neterr p_png []).2.1 = none
    ∧ (create_package w_neterr p_png []).2.2 = [p_png.icon_url]
    ∧ ∀ pc ∈ (create_package w_neterr p_png []).2.1, pc.2 ≠ Content.defaultIcon :=
  (icon_transport_failure_aborts w_neterr p_png [] "png" rfl).1 rfl

/-! ### C7 -/

/-- World in which the tar process for the control subtree runs but
exits unsuccessfully, while everything else succeeds. -/
def w_tarfail : World :=
  { host := some (some "example.com"), iconSegments := none,
    net := Except.error (), tarCtl := Except.ok false, tarData := Except.ok true }

/-- C7 counterexample: at a concrete build whose tar/gzip step fails
(the spawned tar process runs and exits unsuccessfully), the failure is
not fatal at its step — `create_tar_gz` reports success because the
source discards `Output::status` after `Command::output()?` — the build
continues to assemble (the data tarball is still produced), and the
error the entry point finally returns is a later `File::open` failure on
the missing `control.tar.gz`, not the tar failure's own cause.  So the
build neither aborts at the failing step nor surfaces its cause
unchanged, contradicting the claim. -/
theorem tar_failure_build_continues :
    create_tar_gz w_tarfail.tarCtl ["control.tar.gz"] "control" [] =
      (Except.ok (), ([] : FS))
    ∧ (create_package w_tarfail p_fallback []).1 =
        Except.error (Err.openErr ["control.tar.gz"])
    ∧ (fsLookup ["data.tar.gz"] (create_package w_tarfail p_fallback []).2.1).isSome = true :=
  ⟨rfl, rfl, rfl⟩

/-- C7 (amended): for every build that reaches the archive steps (either
icon branch completed), an io error spawning either tar process is fatal
and propagated unchanged by the build entry point, and an io error
opening a member source file while writing the container is fatal and
propagated unchanged by `create_ar`; but a tar process that runs and
exits with a failure status is ignored — `create_tar_gz` reports
success, the build continues to assemble (the data tarball is still
produced), and the error eventually surfaced, if any, is a later
`File::open` failure rather than the tar failure itself. -/
theorem archive_error_propagation (w : World) (p : Package) (fs0 : FS) (eio : Err)
    (hstage : iconExt w.iconSegments = none
      ∨ ∃ e r, iconExt w.iconSegments = some e ∧ w.net = Except.ok r) :
    (w.tarCtl = Except.error eio → (create_package w p fs0).1 = Except.error eio)
    ∧ (w.tarCtl = Except.ok true → w.tarData = Except.error eio →
        (create_package w p fs0).1 = Except.error eio)
    ∧ (w.tarCtl = Except.ok false → w.tarData = Except.ok true →
        (create_package w p fs0).1 = Except.error (Err.openErr ["control.tar.gz"])
        ∧ (fsLookup ["data.tar.gz"] (create_package w p fs0).2.1).isSome = true)
    ∧ (∀ (fs : FS) (filepath src : List String) (nm : String)
          (rest : List (List String × String)), fsLookup src fs = none →
        (create_ar fs filepath ((src, nm) :: rest)).1 = Except.error (Err.openErr src))
    ∧ ∀ (b : Bool) (t : List String) (d : String) (fs : FS),
        (create_tar_gz (Except.ok b) t d fs).1 = Except.ok () := by
  refine ⟨?_, ?_, ?_, ?_, ?_⟩
  · intro hctl
    rcases hstage with hext | ⟨e, r, hext, hnet⟩
    · simp only [create_package, stage_rest, create_tar_gz, hext, hctl]
    · simp only [create_package, download_file, stage_rest, create_tar_gz, hext, hnet, hctl]
  · intro hctl hdat
    rcases hstage with hext | ⟨e, r, hext, hnet⟩
    · simp only [create_package, stage_rest, create_tar_gz, hext, hctl, hdat]
    · simp only [create_package, download_file, stage_rest, create_tar_gz, hext, hnet,
        hctl, hdat]
  · intro hctl hdat
    rcases hstage with hext | ⟨e, r, hext, hnet⟩
    · constructor
      · simp only [create_package, stage_rest, create_tar_gz, hext, hctl, hdat]
        rfl
      · simp only [create_package, stage_rest, create_tar_gz, hext, hctl, hdat]
        rfl
    · constructor
      · simp only [create_package, download_file, stage_rest, create_tar_gz, hext, hnet,
          hctl, hdat]
        rfl
      · simp only [create_package, download_file, stage_rest, create_tar_gz, hext, hnet,
          hctl, hdat]
        rfl
  · intro fs filepath src nm rest hmiss
    simp only [create_ar, arAppend, hmiss]
  · intro b t d fs
    rfl

/-- World in which spawning tar for the control subtree fails with an io
error (bundled-icon build). -/
def w_spawnfail : World :=
  { host := some (some "example.com"), iconSegments := none,
    net := Except.error (), tarCtl := Except.error (Err.spawnErr "No such file"),
    tarData := Except.ok true }

/-- World like `w_spawnfail` but for a fetched-icon build: the icon URL
parses with segments `["icon.png"]` and the fetch succeeds. -/
def w_spawnfail_fetch : World :=
  { host := some (some "example.com"), iconSegments := some (some ["icon.png"]),
    net := Except.ok { statusSuccess := true },
    tarCtl := Except.error (Err.spawnErr "No such file"), tarData := Except.ok true }

/-- Witness for C7's amended statement: the tar spawn error propagates
unchanged to the entry point, both for a bundled-icon build and for a
fetched-icon build. -/
theorem archive_error_propagation_witness :
    (create_package w_spawnfail p_fallback []).1 =
      Except.error (Err.spawnErr "No such file")
    ∧ (create_package w_spawnfail_fetch p_png []).1 =
        Except.error (Err.spawnErr "No such file") :=
  ⟨(archive_error_propagation w_spawnfail p_fallback []
      (Err.spawnErr "No such file") (Or.inl rfl)).1 rfl,
   (archive_error_propagation w_spawnfail_fetch p_png []
      (Err.spawnErr "No such file")
      (Or.inr ⟨"png", { statusSuccess := true }, rfl, rfl⟩)).1 rfl⟩

/-! ### C1 -/

/-- C1 counterexample: for the claim's own example
`https://example.com/icon` (final path segment `icon`, no dot-delimited
suffix), the code fetches the bytes and stages them as `icon.icon` — it
does NOT write the default icon to `icon.svg`, and it does perform a
fetch, because Rust's `rsplit('.')` always yields at least one item. -/
theorem icon_no_extension_fetched :
    (create_package w_noext p_noext []).1 = Except.ok ()
    ∧ fsLookup ["data", "icon.icon"] (create_package w_noext p_noext []).2.1 =
        some (Content.fetched "https://example.com/icon")
    ∧ fsLookup ["data", "icon.svg"] (create_package w_noext p_noext []).2.1 = none
    ∧ (create_package w_noext p_noext []).2.2 = ["https://example.com/icon"] :=
  ⟨rfl, rfl, rfl, rfl⟩

/-- C1 (amended): the default `icon.svg` is written (and no fetch
performed) exactly when the icon URL fails to parse or has no path
segments; whenever an extension is computed — which happens for EVERY
parsed URL with path segments — the bytes are fetched (exactly one
attempt) and staged under `icon.<ext>`, where `<ext>` is the substring of
the final segment after its last dot: the whole segment when it contains
no dot (`icon` → `icon.icon`), the usual suffix otherwise
(`logo.png` → `png`, `archive.tar.gz` → `gz`). -/
theorem icon_resolver_behavior (w : World) (p : Package) (fs0 : FS) :
    (iconExt w.iconSegments = none →
      fsLookup ["data", "icon.svg"] (create_package w p fs0).2.1 = some Content.defaultIcon
      ∧ (create_package w p fs0).2.2 = [])
    ∧ (∀ e, iconExt w.iconSegments = some e →
        (create_package w p fs0).2.2 = [p.icon_url])
    ∧ (∀ l, iconExt (some (some l)) =
        (match l.reverse with
         | [] => none
         | lastSeg :: _ => some (rsplitDotFirst lastSeg)))
    ∧ iconExt none = none ∧ iconExt (some none) = none
    ∧ rsplitDotFirst "icon" = "icon" ∧ rsplitDotFirst "logo.png" = "png"
    ∧ rsplitDotFirst "archive.tar.gz" = "gz" := by
  refine ⟨?_, ?_, fun l => rfl, rfl, rfl, rfl, rfl, rfl⟩
  · intro hext
    have key : create_package w p fs0 =
        stage_rest w p "icon.svg"
          ((["data", "icon.svg"], Content.defaultIcon) ::
            [(["data", "shortcut.apparmor"], Content.text data_apparmor_content),
             (["data", "preinst"], Content.text control_preinst_content),
             (["control", "manifest"],
               Content.text (control_manifest_content (appname w.host p.url) p.name)),
             (["control", "control"],
               Content.text (control_control_content (appname w.host p.url))),
             (["debian-binary"], Content.text "2.0\n"),
             (["click_binary"], Content.text "0.4\n")]) [] := by
      simp only [create_package, hext]
      rfl
    rw [key]
    constructor
    · rw [stage_rest_preserves] <;> first | (intro hh; simp at hh) | skip
      exact fsLookup_cons_self _ _ _
    · exact stage_rest_fetches _ _ _ _ _
  · intro e hext
    rcases hnet : w.net with u | r
    · simp only [create_package, download_file, hext, hnet]
    · have key : create_package w p fs0 =
          stage_rest w p ("icon." ++ e)
            ((["data", "icon." ++ e], Content.fetched p.icon_url) ::
              [(["data", "shortcut.apparmor"], Content.text data_apparmor_content),
               (["data", "preinst"], Content.text control_preinst_content),
               (["control", "manifest"],
                 Content.text (control_manifest_content (appname w.host p.url) p.name)),
               (["control", "control"],
                 Content.text (control_control_content (appname w.host p.url))),
               (["debian-binary"], Content.text "2.0\n"),
               (["click_binary"], Content.text "0.4\n")]) [p.icon_url] := by
        simp only [create_package, download_file, hext, hnet]
        rfl
      rw [key]
      exact stage_rest_fetches _ _ _ _ _

/-- Witness for C1's amended statement: a build with an unparsable icon
URL stages the bundled default icon and fetches nothing. -/
theorem icon_resolver_behavior_witness :
    fsLookup ["data", "icon.svg"] (create_package w_fallback p_fallback []).2.1 =
      some Content.defaultIcon
    ∧ (create_package w_fallback p_fallback []).2.2 = [] :=
  (icon_resolver_behavior w_fallback p_fallback []).1 rfl
